import Mathlib

/-!
Shallow embedding of the vikunja-mcp server (src/vikunja_mcp/server.py) and
proofs about its configuration store, instance resolver, API-client error
handling, fan-out aggregator and client-side query tools.

Conventions of the embedding:
* Python dicts become insertion-ordered association lists; assigning a key
  replaces the first existing binding in place or appends a fresh one.
* Python string operations used by the code are re-implemented structurally
  on character lists (code-point semantics, matching CPython).
* `os.environ` becomes an explicit `Env` record holding the variables the
  code reads; `yaml.safe_load`/`json.loads` of the external libraries are
  modelled by their parse result (a `Value`, or a failure marker).
* Exceptions become `Except String`; the carried string is the message the
  Python code formats.
-/

/-- Code-point lexicographic comparison of character lists; this is how
CPython compares strings with `<=`. -/
def charListLE : List Char → List Char → Bool
  | [], _ => true
  | _ :: _, [] => false
  | a :: as, b :: bs => if a < b then true else if b < a then false else charListLE as bs

/-- Python string `<=` (code-point lexicographic). -/
def strLE (a b : String) : Bool := charListLE a.toList b.toList

/-- Python `s.startswith(pre)`. -/
def pyStartsWith (s pre : String) : Bool := List.isPrefixOf pre.toList s.toList

/-- Python `s.endswith(suf)`. -/
def pyEndsWith (s suf : String) : Bool := List.isPrefixOf suf.toList.reverse s.toList.reverse

/-- Python `s.rstrip("/")`: drop every trailing slash (server.py lines 132,
151, 206, 227). -/
def pyRstripSlash (s : String) : String :=
  String.mk (s.toList.reverse.dropWhile (fun c => c = '/')).reverse

/-- Python `s.replace("Z", "+00:00")` (server.py line 829): every occurrence
of the character Z is replaced. -/
def pyReplaceZ (s : String) : String :=
  String.mk (s.toList.foldr
    (fun c acc => if c = 'Z' then '+' :: '0' :: '0' :: ':' :: '0' :: '0' :: acc else c :: acc) [])

/-- Python `t[2:-1]`, used to cut the variable name out of a token of the
form dollar-brace-NAME-brace (server.py line 219). -/
def tokenVarName (t : String) : String := String.mk (t.toList.drop 2).dropLast

/-- JSON/YAML values as far as this server manipulates them.  Floating point
numbers never occur in the configuration data the claims are about. -/
inductive Value where
  | null
  | bool (b : Bool)
  | int (n : Int)
  | str (s : String)
  | arr (elems : List Value)
  | obj (fields : List (String × Value))

/-- Python truthiness of a `Value` (`if not x`). -/
def isFalsy : Value → Bool
  | Value.null => true
  | Value.bool b => !b
  | Value.int n => n = 0
  | Value.str s => s = ""
  | Value.arr es => es.isEmpty
  | Value.obj fs => fs.isEmpty

/-- First binding of a key in a Python dict (`d.get(k)` / `d[k]`). -/
def lookupField : List (String × Value) → String → Option Value
  | [], _ => none
  | (k, v) :: rest, n => if k = n then some v else lookupField rest n

/-- Python `k in d`. -/
def hasFieldB (fs : List (String × Value)) (k : String) : Bool :=
  (lookupField fs k).isSome

/-- Python `d[k] = v`: replace the existing binding in place, else append. -/
def setField : List (String × Value) → String → Value → List (String × Value)
  | [], k, v => [(k, v)]
  | (k', v') :: rest, k, v =>
      if k' = k then (k', v) :: rest else (k', v') :: setField rest k v

/-!
## Config file store (server.py lines 75-100)

The on-disk file is modelled by its parse status: absent, malformed YAML, or
the value `yaml.safe_load` returns (`none` for an empty document).
-/

/-- State of the config file as seen through `yaml.safe_load`. -/
inductive FileState where
  | absent
  | malformed
  | parsed (v : Option Value)

/-- One step of the defaulting loop in `_load_config` (lines 82-84): add the
key with an empty dict value when it is missing. -/
def ensureKey (fs : List (String × Value)) (k : String) : List (String × Value) :=
  if hasFieldB fs k then fs else fs ++ [(k, Value.obj [])]

/-- The defaulting loop of `_load_config` over the keys instances, xq,
mcp_context (in that order). -/
def defaultConfigKeys (fs : List (String × Value)) : List (String × Value) :=
  ensureKey (ensureKey (ensureKey fs "instances") "xq") "mcp_context"

/-- `_load_config` (server.py lines 75-87).  A missing file yields the
explicit default dict; malformed YAML raises ValueError; a falsy parse
result is replaced by an empty dict (`yaml.safe_load(f) or` empty dict); a
truthy non-dict document makes the defaulting loop raise a TypeError. -/
def _load_config : FileState → Except String (List (String × Value))
  | FileState.absent =>
      Except.ok [("instances", Value.obj []), ("current_instance", Value.null),
                 ("xq", Value.obj []), ("mcp_context", Value.obj [])]
  | FileState.malformed => Except.error "Malformed config file"
  | FileState.parsed v =>
      match v with
      | none => Except.ok (defaultConfigKeys [])
      | some w =>
          if isFalsy w then Except.ok (defaultConfigKeys [])
          else match w with
            | Value.obj fs => Except.ok (defaultConfigKeys fs)
            | _ => Except.error "TypeError: config document is not a mapping"

/-- `_save_config` (server.py lines 90-100): atomically replaces the file
with the YAML dump of the given dict.  The YAML dump/parse round trip of
the external library is the identity on representable values, so the
resulting file state parses back to the written dict. -/
def _save_config (config : List (String × Value)) : FileState :=
  FileState.parsed (some (Value.obj config))

/-!
## Instance resolver (server.py lines 107-227)

The typed view of the parts of the loaded config the resolver reads:
`config["instances"]` (a dict of entries that may lack the url or token
key), `config["current_instance"]` and `config["mcp_context"]["instance"]`.
Entries whose url/token values are not strings are outside the modelled
domain (the real code would raise on first use of such an entry).
-/

/-- One entry of the instances map; `none` models a missing key. -/
structure InstanceEntry where
  url : Option String
  token : Option String
deriving DecidableEq, Repr

/-- The fields of the loaded config file that the instance resolver reads. -/
structure Config where
  instances : List (String × InstanceEntry)
  current_instance : Option String
  mcp_instance : Option String
deriving DecidableEq, Repr

/-- Loaded view of a missing config file (all defaults). -/
def defaultConfig : Config := ⟨[], none, none⟩

/-- One item of the VIKUNJA_INSTANCES JSON (array form item, or object form
value).  The documented schema has string fields name/url/token; `none`
models a missing field. -/
structure EnvItem where
  name : Option String
  url : Option String
  token : Option String
deriving DecidableEq, Repr

/-- Parse result of the VIKUNJA_INSTANCES JSON: an array of items, an
object keyed by name, or any other JSON value (which the code ignores). -/
inductive EnvInstances where
  | list (items : List EnvItem)
  | object (fields : List (String × EnvItem))
  | other

/-- The environment variables the resolver reads.  `instJson = none` models
VIKUNJA_INSTANCES unset or empty, `some (Except.error ())` a JSON parse
failure.  `vars` serves the token indirection lookups. -/
structure Env where
  instJson : Option (Except Unit EnvInstances)
  url : Option String
  token : Option String
  vars : String → Option String

/-- An environment with nothing set. -/
def emptyEnv : Env := ⟨none, none, none, fun _ => none⟩

/-- Python truthiness of an optional string environment value: present and
non-empty. -/
def truthyOpt : Option String → Option String
  | some s => if s = "" then none else some s
  | none => none

/-- First binding of a name in the instances dict. -/
def lookupName : List (String × InstanceEntry) → String → Option InstanceEntry
  | [], _ => none
  | (k, v) :: rest, n => if k = n then some v else lookupName rest n

/-- Python `name in instances`. -/
def hasName (l : List (String × InstanceEntry)) (n : String) : Bool :=
  (lookupName l n).isSome

/-- Entry built from an environment JSON item (server.py lines 131-134 and
139-142): url is defaulted to the empty string and right-stripped of
slashes, token defaulted to the empty string. -/
def mkEnvEntry (it : EnvItem) : InstanceEntry :=
  ⟨some (pyRstripSlash (it.url.getD "")), some (it.token.getD "")⟩

/-- Array-form merge step (lines 128-134): add the item under its name only
when the name is truthy and not already present. -/
def addArrayInstance (acc : List (String × InstanceEntry)) (it : EnvItem) :
    List (String × InstanceEntry) :=
  let name := it.name.getD ""
  if name ≠ "" ∧ hasName acc name = false then acc ++ [(name, mkEnvEntry it)] else acc

/-- Object-form merge step (lines 137-142): config file takes precedence. -/
def addObjectInstance (acc : List (String × InstanceEntry)) (p : String × EnvItem) :
    List (String × InstanceEntry) :=
  if hasName acc p.1 = false then acc ++ [(p.1, mkEnvEntry p.2)] else acc

/-- Merge of the VIKUNJA_INSTANCES JSON into the instance map (server.py
lines 122-144): the array and object forms add entries, any other parse
result — or a parse failure — is ignored. -/
def envJsonMerge (instJson : Option (Except Unit EnvInstances))
    (instances : List (String × InstanceEntry)) : List (String × InstanceEntry) :=
  match instJson with
  | some (Except.ok (EnvInstances.list items)) => items.foldl addArrayInstance instances
  | some (Except.ok (EnvInstances.object fields)) => fields.foldl addObjectInstance instances
  | _ => instances

/-- Fallback to VIKUNJA_URL/VIKUNJA_TOKEN as the synthetic default entry
(server.py lines 146-153): only when both are truthy and no entry named
default exists yet. -/
def defaultFallback (url token : Option String)
    (instances : List (String × InstanceEntry)) : List (String × InstanceEntry) :=
  match truthyOpt url, truthyOpt token with
  | some u, some t =>
      if hasName instances "default" = false then
        instances ++ [("default", ⟨some (pyRstripSlash u), some t⟩)]
      else instances
  | _, _ => instances

/-- `_get_instances` (server.py lines 107-155): config-file instances,
then the VIKUNJA_INSTANCES JSON in array or object form (never overriding),
then the VIKUNJA_URL/VIKUNJA_TOKEN pair as a synthetic default entry. -/
def _get_instances (cfg : Config) (env : Env) : List (String × InstanceEntry) :=
  defaultFallback env.url env.token (envJsonMerge env.instJson cfg.instances)

/-- `_get_current_instance` (server.py lines 158-179). -/
def _get_current_instance (cfg : Config) (env : Env) : Option String :=
  match truthyOpt cfg.mcp_instance with
  | some s => some s
  | none =>
    match truthyOpt cfg.current_instance with
    | some s => some s
    | none =>
      match _get_instances cfg env with
      | [] => none
      | (n, e) :: rest =>
          if hasName ((n, e) :: rest) "default" then some "default" else some n

/-- Statement of the claimed resolution order, written from the words of the spec: prefer the session-context instance, else the persisted
current_instance, else `default` when resolvable, else the first resolvable
instance in insertion order, else none. -/
def resolveCurrentSpec (cfg : Config) (env : Env) : Option String :=
  match truthyOpt cfg.mcp_instance with
  | some s => some s
  | none =>
    match truthyOpt cfg.current_instance with
    | some s => some s
    | none =>
      let insts := _get_instances cfg env
      if hasName insts "default" then some "default"
      else insts.head?.map Prod.fst

/-- `_get_instance_config` (server.py lines 197-227): resolve the name (or
the current instance), fall back to the flat environment pair when nothing
is resolved, look the instance up, resolve a token indirection of the form
dollar-brace-NAME-brace through the environment, and require both url and
token to be truthy. -/
def _get_instance_config (cfg : Config) (env : Env) (name? : Option String) :
    Except String (String × String) :=
  let name := match name? with
    | none => _get_current_instance cfg env
    | some n => some n
  match name with
  | none =>
    match truthyOpt env.url, truthyOpt env.token with
    | some u, some t => Except.ok (pyRstripSlash u, t)
    | _, _ => Except.error
        "No instance configured. Set VIKUNJA_URL/VIKUNJA_TOKEN or configure instances."
  | some n =>
    match lookupName (_get_instances cfg env) n with
    | none => Except.error ("Instance \x27" ++ n ++ "\x27 not found")
    | some inst =>
      let urlOpt := inst.url
      let tokenRes : Except String (Option String) :=
        match inst.token with
        | some t =>
          if t ≠ "" ∧ pyStartsWith t "$\x7b" = true ∧ pyEndsWith t "\x7d" = true then
            let v := tokenVarName t
            match truthyOpt (env.vars v) with
            | some tv => Except.ok (some tv)
            | none => Except.error
                ("Environment variable " ++ v ++ " not set for instance \x27" ++ n ++ "\x27")
          else Except.ok (some t)
        | none => Except.ok none
      match tokenRes with
      | Except.error e => Except.error e
      | Except.ok tokOpt =>
        match truthyOpt urlOpt, truthyOpt tokOpt with
        | some u, some t => Except.ok (pyRstripSlash u, t)
        | _, _ => Except.error ("Instance \x27" ++ n ++ "\x27 missing url or token")

/-!
## API client (server.py lines 234-256)

The HTTP layer is external: a response is modelled by its status code, its
raw body text, and the result of `response.json()` (`Except.error ()` when
the body is not valid JSON).
-/

/-- An HTTP response as `_request` inspects it. -/
structure HttpResponse where
  status : Nat
  text : String
  json : Except Unit Value

/-- Python `str()` of a scalar value, used when the message
field of an error body is not a string; container renderings are abbreviated (no claim
depends on them). -/
def pyStr : Value → String
  | Value.null => "None"
  | Value.bool true => "True"
  | Value.bool false => "False"
  | Value.int n => toString n
  | Value.str s => s
  | Value.arr _ => "[...]"
  | Value.obj _ => "..."

/-- Best-effort error message extraction (server.py lines 246-250): the
message field of the parsed body when the body parses to a dict that has one,
else the raw body text (a parse failure or a non-dict body both raise
inside the try and fall back to the text). -/
def bestEffortMessage (resp : HttpResponse) : String :=
  match resp.json with
  | Except.ok (Value.obj fs) =>
      match lookupField fs "message" with
      | some v => pyStr v
      | none => resp.text
  | _ => resp.text

/-- Response handling of `_request` (server.py lines 245-256): status at
least 400 raises a Vikunja API error with the status and best-effort
message; 204 returns an empty dict; otherwise the body is parsed as JSON,
and `response.json()` raises a decode error when it is not valid JSON. -/
def _request_handle (resp : HttpResponse) : Except String Value :=
  if 400 ≤ resp.status then
    Except.error ("Vikunja API error (" ++ toString resp.status ++ "): "
      ++ bestEffortMessage resp)
  else if resp.status = 204 then Except.ok (Value.obj [])
  else match resp.json with
    | Except.ok v => Except.ok v
    | Except.error _ => Except.error "JSONDecodeError: response body is not valid JSON"

/-- `_request` (server.py lines 234-256): resolve credentials first (any
configuration error propagates and no request is issued), then hand the
response of the network — modelled as a function of the resolved url and
token — to the response handler. -/
def _request (cfg : Config) (env : Env) (name? : Option String)
    (net : String → String → HttpResponse) : Except String Value :=
  match _get_instance_config cfg env name? with
  | Except.error e => Except.error e
  | Except.ok (url, token) => _request_handle (net url token)

/-!
## Fan-out aggregator (server.py lines 259-279)
-/

/-- Tag every item of a list response with its origin instance (server.py
lines 270-271).  A non-dict item makes the item assignment raise a
TypeError, which the per-instance handler catches — `none` signals that. -/
def tagItems (name : String) : List Value → Option (List Value)
  | [] => some []
  | Value.obj fs :: rest =>
      (tagItems name rest).map
        (fun r => Value.obj (setField fs "_instance" (Value.str name)) :: r)
  | _ :: _ => none

/-- Tag a response with its origin instance (server.py lines 269-275): a
list is tagged item-wise and spliced, a dict is tagged and appended as one
result, anything else raises a TypeError on the assignment (caught,
instance skipped). -/
def tagResult (name : String) : Value → Option (List Value)
  | Value.arr items => tagItems name items
  | Value.obj fs => some [Value.obj (setField fs "_instance" (Value.str name))]
  | _ => none

/-- One iteration of the `_request_all_instances` loop (server.py lines
266-277): on success append the tagged results, on a raised exception —
from the request or from the tagging — log and keep going. -/
def fanoutStep (req : String → Except String Value) (results : List Value)
    (p : String × InstanceEntry) : List Value :=
  match req p.1 with
  | Except.ok data =>
      match tagResult p.1 data with
      | some items => results ++ items
      | none => results
  | Except.error _ => results

/-- `_request_all_instances` (server.py lines 259-279).  The outcome of
`_request` for each instance is abstracted as `req`; a raising instance (or
a tagging TypeError) is logged and skipped, it never aborts the loop. -/
def _request_all_instances (instances : List (String × InstanceEntry))
    (filterInstance : String) (req : String → Except String Value) : List Value :=
  let instances :=
    if filterInstance ≠ "" then instances.filter (fun p => p.1 = filterInstance)
    else instances
  instances.foldl (fanoutStep req) []

/-- The tagged results contributed by one instance: the tagged response
when the request succeeds and tagging applies, nothing otherwise. -/
def instanceContribution (req : String → Except String Value)
    (p : String × InstanceEntry) : List Value :=
  match req p.1 with
  | Except.ok data => (tagResult p.1 data).getD []
  | Except.error _ => []

/-!
## Datetime model

Aware Python datetimes at microsecond precision.  Ordering between aware
datetimes compares the instants they denote, computed here as microseconds
from the proleptic start of year 1 (the arithmetic behind
`datetime.__le__`).  `datetime.fromisoformat` is modelled on the profile
the server feeds it — `YYYY-MM-DD` + separator + `HH:MM:SS`, optional
fractional seconds, explicit `+HH:MM`/`-HH:MM` offset (the form produced
by replacing `Z`).  Other inputs, including naive timestamps without an
offset (which the query tools could not compare against the aware `now`
anyway), are outside the modelled domain and parse to `none`.
-/

/-- An aware Python datetime. -/
structure PyDateTime where
  year : Nat
  month : Nat
  day : Nat
  hour : Nat
  minute : Nat
  second : Nat
  micro : Nat
  offMin : Int
deriving DecidableEq, Repr

/-- Gregorian leap year. -/
def isLeap (y : Nat) : Bool := (y % 4 = 0 ∧ y % 100 ≠ 0) ∨ y % 400 = 0

/-- Days in a month (month assumed in 1..12). -/
def daysInMonth (y m : Nat) : Nat :=
  if m = 2 then (if isLeap y then 29 else 28)
  else if m = 4 ∨ m = 6 ∨ m = 9 ∨ m = 11 then 30
  else 31

/-- Days before the given month in a non-leap year. -/
def daysBeforeMonth : Nat → Nat
  | 1 => 0
  | 2 => 31
  | 3 => 59
  | 4 => 90
  | 5 => 120
  | 6 => 151
  | 7 => 181
  | 8 => 212
  | 9 => 243
  | 10 => 273
  | 11 => 304
  | 12 => 334
  | _ => 0

/-- Days from 0001-01-01 to the given civil date (the ordinal arithmetic of
`datetime.date.toordinal`, shifted by one). -/
def toOrdinalDays (y m d : Nat) : Nat :=
  365 * (y - 1) + (y - 1) / 4 - (y - 1) / 100 + (y - 1) / 400
    + daysBeforeMonth m + (if 2 < m ∧ isLeap y then 1 else 0) + (d - 1)

/-- Microseconds from the proleptic start of year 1, offset applied; two
aware datetimes compare exactly as these instants do. -/
def toEpochMicro (dt : PyDateTime) : Int :=
  ((toOrdinalDays dt.year dt.month dt.day : Int) * 86400
      + dt.hour * 3600 + dt.minute * 60 + dt.second) * 1000000
    + dt.micro - dt.offMin * 60000000

/-- Aware datetime `<=`. -/
def dtLEb (a b : PyDateTime) : Bool := decide (toEpochMicro a ≤ toEpochMicro b)

/-- Aware datetime `<`. -/
def dtLTb (a b : PyDateTime) : Bool := decide (toEpochMicro a < toEpochMicro b)

/-- Value of a decimal digit character. -/
def digitVal (c : Char) : Option Nat :=
  if c.isDigit then some (c.toNat - 48) else none

/-- Two decimal digits. -/
def num2 (a b : Char) : Option Nat := do
  let x ← digitVal a
  let y ← digitVal b
  pure (10 * x + y)

/-- Four decimal digits. -/
def num4 (a b c d : Char) : Option Nat := do
  let x ← num2 a b
  let y ← num2 c d
  pure (100 * x + y)

/-- Leading run of digits of a character list. -/
def takeDigits : List Char → (List Nat × List Char)
  | [] => ([], [])
  | c :: rest =>
      match digitVal c with
      | some d => let (ds, r) := takeDigits rest; (d :: ds, r)
      | none => ([], c :: rest)

/-- Microseconds denoted by one to six fractional-second digits. -/
def fracMicro (ds : List Nat) : Option Nat :=
  if 1 ≤ ds.length ∧ ds.length ≤ 6 then
    some ((ds.foldl (fun a d => 10 * a + d) 0) * 10 ^ (6 - ds.length))
  else none

/-- UTC offset suffix `+HH:MM` / `-HH:MM`, in minutes. -/
def parseOffset : List Char → Option Int
  | ['+', h1, h2, ':', m1, m2] => do
      let h ← num2 h1 h2
      let m ← num2 m1 m2
      if h ≤ 23 ∧ m ≤ 59 then pure (h * 60 + m) else none
  | ['-', h1, h2, ':', m1, m2] => do
      let h ← num2 h1 h2
      let m ← num2 m1 m2
      if h ≤ 23 ∧ m ≤ 59 then pure (-(h * 60 + m : Int)) else none
  | _ => none

/-- `datetime.fromisoformat` on the modelled profile (see the section
comment): date, separator, time, optional fraction, explicit offset, with
the validation `fromisoformat` performs on each field. -/
def parseIso (s : String) : Option PyDateTime :=
  match s.toList with
  | y1 :: y2 :: y3 :: y4 :: '-' :: mo1 :: mo2 :: '-' :: d1 :: d2 :: rest => do
      let y ← num4 y1 y2 y3 y4
      let mo ← num2 mo1 mo2
      let d ← num2 d1 d2
      if 1 ≤ y ∧ 1 ≤ mo ∧ mo ≤ 12 ∧ 1 ≤ d ∧ d ≤ daysInMonth y mo then
        match rest with
        | sep :: t =>
          if sep = 'T' ∨ sep = ' ' then
            match t with
            | h1 :: h2 :: ':' :: mi1 :: mi2 :: ':' :: s1 :: s2 :: r => do
                let h ← num2 h1 h2
                let mi ← num2 mi1 mi2
                let sec ← num2 s1 s2
                if h ≤ 23 ∧ mi ≤ 59 ∧ sec ≤ 59 then do
                  let fr ←
                    match r with
                    | '.' :: r1 =>
                        let (ds, rr) := takeDigits r1
                        (fracMicro ds).map (fun m => (m, rr))
                    | _ => some ((0 : Nat), r)
                  let off ← parseOffset fr.2
                  pure ⟨y, mo, d, h, mi, sec, fr.1, off⟩
                else none
            | _ => none
          else none
        | [] => none
      else none
  | _ => none

/-!
## Aggregated task records and query tools (server.py lines 797-1081)
-/

/-- A task as the query tools see it after `_get_all_tasks` tagged it: the
fields the tools read, with `none` for a missing field.  `projectTitle` and
`instName` carry the `_project_title` and `_instance` tags. -/
structure VikTask where
  id : Int
  title : String
  due_date : Option String
  priority : Option Int
  projectTitle : String
  instName : String
deriving DecidableEq, Repr

/-- The zero-value sentinel timestamp Vikunja uses for no due date. -/
def sentinelDue : String := "0001-01-01T00:00:00Z"

/-- `_parse_due_date` (server.py lines 823-831): a missing, falsy or
sentinel due date is absent; otherwise Z is replaced by +00:00 and the
string parsed, any parse failure yielding absent. -/
def _parse_due_date (t : VikTask) : Option PyDateTime :=
  match t.due_date with
  | none => none
  | some due =>
      if due = "" ∨ due = sentinelDue then none
      else parseIso (pyReplaceZ due)

/-- Membership test of `overdue_tasks` (line 845) and the overdue flags:
parsed due date strictly before now. -/
def isOverdueAt (now : PyDateTime) (t : VikTask) : Bool :=
  match _parse_due_date t with
  | some d => dtLTb d now
  | none => false

/-- End of the current day as `due_today` computes it (line 865):
`now.replace(hour=23, minute=59, second=59)` — microseconds kept. -/
def todayEnd (now : PyDateTime) : PyDateTime :=
  { now with hour := 23, minute := 59, second := 59 }

/-- Membership test of `due_today` (line 871). -/
def dueTodayMatches (now : PyDateTime) (t : VikTask) : Bool :=
  match _parse_due_date t with
  | some d => dtLEb d (todayEnd now)
  | none => false

/-- Membership test of `due_this_week` (lines 892, 898): due instant at
most now plus seven days. -/
def dueThisWeekMatches (now : PyDateTime) (t : VikTask) : Bool :=
  match _parse_due_date t with
  | some d => decide (toEpochMicro d ≤ toEpochMicro now + 604800000000)
  | none => false

/-- Membership test of `upcoming_deadlines` (lines 1064, 1070): now ≤ due
≤ now plus the requested days. -/
def upcomingMatches (now : PyDateTime) (days : Int) (t : VikTask) : Bool :=
  match _parse_due_date t with
  | some d =>
      decide (toEpochMicro now ≤ toEpochMicro d
        ∧ toEpochMicro d ≤ toEpochMicro now + days * 86400000000)
  | none => false

/-- Membership test of `high_priority_tasks` (line 928). -/
def highPriorityMatches (t : VikTask) : Bool := decide (3 ≤ t.priority.getD 0)

/-- Membership test of `urgent_tasks` (line 951). -/
def urgentMatches (t : VikTask) : Bool := decide (4 ≤ t.priority.getD 0)

/-- Membership test of `focus_now` (lines 970-973): overdue or priority at
least 4. -/
def focusMatches (now : PyDateTime) (t : VikTask) : Bool :=
  isOverdueAt now t || decide (4 ≤ t.priority.getD 0)

/-- Membership test of `unscheduled_tasks` (line 1051): no parsed due
date. -/
def unscheduledMatches (t : VikTask) : Bool := (_parse_due_date t).isNone

/-- Lexicographic order on the Python sort keys `(int, str)`. -/
def pairLE (a b : Int × String) : Prop :=
  a.1 < b.1 ∨ (a.1 = b.1 ∧ strLE a.2 b.2 = true)

instance : DecidableRel pairLE := fun a b => by unfold pairLE; infer_instance

/-- Output record of `focus_now` (lines 974-982).  The code stores the raw
Python truthiness chain `due and due < now` in the overdue field; it is
rendered here as its boolean value. -/
structure FocusItem where
  id : Int
  title : String
  priority : Int
  due_date : Option String
  overdue : Bool
  project : String
  inst : String
deriving DecidableEq, Repr

/-- The item `focus_now` appends for a matching task. -/
def mkFocusItem (now : PyDateTime) (t : VikTask) : FocusItem :=
  ⟨t.id, t.title, t.priority.getD 0, t.due_date, isOverdueAt now t,
   t.projectTitle, t.instName⟩

/-- Sort-key string of `focus_now` (line 984): `x.get("due_date") or
"9999"` — a missing or falsy due date sorts under the high sentinel. -/
def focusKeyStr : Option String → String
  | some s => if s = "" then "9999" else s
  | none => "9999"

/-- Sort key of `focus_now` (line 984). -/
def focusKey (x : FocusItem) : Int × String := (-x.priority, focusKeyStr x.due_date)

/-- Sort relation of `focus_now`. -/
def focusLE (a b : FocusItem) : Prop := pairLE (focusKey a) (focusKey b)

instance : DecidableRel focusLE := fun a b => by unfold focusLE; infer_instance

/-- Result of `focus_now` (line 990). -/
structure FocusResult where
  tasks : List FocusItem
  count : Nat
  total_matching : Nat
deriving DecidableEq, Repr

/-- `focus_now` (server.py lines 958-990) on an aggregated snapshot:
filter, stable sort by (priority descending, due-date string ascending
with the high sentinel), then truncate when the limit is positive.
`List.insertionSort` is a stable sort, hence computes exactly what
the stable Python `list.sort` computes for this key. -/
def focus_now (tasks : List VikTask) (now : PyDateTime) (limit : Int) : FocusResult :=
  let focus := (tasks.filter (focusMatches now)).map (mkFocusItem now)
  let sorted := List.insertionSort focusLE focus
  let total := sorted.length
  let final := if 0 < limit then sorted.take limit.toNat else sorted
  ⟨final, final.length, total⟩

/-- Output record of `due_today` (lines 872-880). -/
structure DueItem where
  id : Int
  title : String
  due_date : Option String
  priority : Int
  project : String
  inst : String
  overdue : Bool
deriving DecidableEq, Repr

/-- The item `due_today` appends for a matching task. -/
def mkDueItem (now : PyDateTime) (t : VikTask) : DueItem :=
  ⟨t.id, t.title, t.due_date, t.priority.getD 0, t.projectTitle, t.instName,
   match _parse_due_date t with
   | some d => dtLTb d now
   | none => false⟩

/-- Sort key of `due_today` (line 882): `(-priority, due-date string)`;
every emitted item carries its raw due-date string. -/
def dueKey (x : DueItem) : Int × String := (-x.priority, x.due_date.getD "")

/-- Sort relation of `due_today`. -/
def dueLE (a b : DueItem) : Prop := pairLE (dueKey a) (dueKey b)

instance : DecidableRel dueLE := fun a b => by unfold dueLE; infer_instance

/-- Result of `due_today` (line 883). -/
structure DueResult where
  tasks : List DueItem
  count : Nat
deriving DecidableEq, Repr

/-- `due_today` (server.py lines 859-883). -/
def due_today (tasks : List VikTask) (now : PyDateTime) : DueResult :=
  let due := (tasks.filter (dueTodayMatches now)).map (mkDueItem now)
  let sorted := List.insertionSort dueLE due
  ⟨sorted, sorted.length⟩

/-- Output record of `overdue_tasks`, `due_this_week` and
`upcoming_deadlines` (lines 846-853, 899-906, 1071-1078). -/
structure BasicItem where
  id : Int
  title : String
  due_date : Option String
  priority : Int
  project : String
  inst : String
deriving DecidableEq, Repr

/-- The item those three tools append for a matching task. -/
def mkBasicItem (t : VikTask) : BasicItem :=
  ⟨t.id, t.title, t.due_date, t.priority.getD 0, t.projectTitle, t.instName⟩

/-- Their shared ascending sort by the raw due-date string (lines 855, 908,
1080). -/
def basicLE (a b : BasicItem) : Prop :=
  strLE (a.due_date.getD "") (b.due_date.getD "") = true

instance : DecidableRel basicLE := fun a b => by unfold basicLE; infer_instance

/-- Result shape of those three tools. -/
structure BasicResult where
  tasks : List BasicItem
  count : Nat
deriving DecidableEq, Repr

/-- `overdue_tasks` (server.py lines 834-856). -/
def overdue_tasks (tasks : List VikTask) (now : PyDateTime) : BasicResult :=
  let l := (tasks.filter (isOverdueAt now)).map mkBasicItem
  let sorted := List.insertionSort basicLE l
  ⟨sorted, sorted.length⟩

/-- `due_this_week` (server.py lines 886-909). -/
def due_this_week (tasks : List VikTask) (now : PyDateTime) : BasicResult :=
  let l := (tasks.filter (dueThisWeekMatches now)).map mkBasicItem
  let sorted := List.insertionSort basicLE l
  ⟨sorted, sorted.length⟩

/-- `upcoming_deadlines` (server.py lines 1057-1081). -/
def upcoming_deadlines (tasks : List VikTask) (now : PyDateTime) (days : Int) : BasicResult :=
  let l := (tasks.filter (upcomingMatches now days)).map mkBasicItem
  let sorted := List.insertionSort basicLE l
  ⟨sorted, sorted.length⟩

/-- Output record of `unscheduled_tasks` (lines 1044-1050): no due-date
field. -/
structure UnschedItem where
  id : Int
  title : String
  priority : Int
  project : String
  inst : String
deriving DecidableEq, Repr

/-- Result of `unscheduled_tasks` (line 1054). -/
structure UnschedResult where
  tasks : List UnschedItem
  count : Nat
deriving DecidableEq, Repr

/-- `unscheduled_tasks` (server.py lines 1036-1054); unsorted. -/
def unscheduled_tasks (tasks : List VikTask) : UnschedResult :=
  let l := (tasks.filter unscheduledMatches).map
    (fun t => UnschedItem.mk t.id t.title (t.priority.getD 0) t.projectTitle t.instName)
  ⟨l, l.length⟩

/-- Counts returned by `task_summary` (lines 1004-1012). -/
structure SummaryCounts where
  total : Nat
  overdue : Nat
  due_today : Nat
  due_this_week : Nat
  high_priority : Nat
  urgent : Nat
  unscheduled : Nat
deriving DecidableEq, Repr

/-- One iteration of the `task_summary` loop (lines 1014-1031). -/
def summaryStep (now : PyDateTime) (c : SummaryCounts) (t : VikTask) : SummaryCounts :=
  let c :=
    match _parse_due_date t with
    | some due =>
        let c := if dtLTb due now then { c with overdue := c.overdue + 1 } else c
        let c := if dtLEb due (todayEnd now) then { c with due_today := c.due_today + 1 } else c
        if decide (toEpochMicro due ≤ toEpochMicro now + 604800000000) then
          { c with due_this_week := c.due_this_week + 1 }
        else c
    | none => { c with unscheduled := c.unscheduled + 1 }
  let p := t.priority.getD 0
  let c := if decide (3 ≤ p) then { c with high_priority := c.high_priority + 1 } else c
  if decide (4 ≤ p) then { c with urgent := c.urgent + 1 } else c

/-- `task_summary` (server.py lines 993-1033). -/
def task_summary (tasks : List VikTask) (now : PyDateTime) : SummaryCounts :=
  tasks.foldl (summaryStep now) ⟨tasks.length, 0, 0, 0, 0, 0, 0⟩

/-!
## Order lemmas for the Python sort keys
-/

/-- Characterization of the character-list order on cons cells. -/
theorem charListLE_cons_iff {a b : Char} {as bs : List Char} :
    charListLE (a :: as) (b :: bs) = true ↔ a < b ∨ (a = b ∧ charListLE as bs = true) := by
  have hdef : charListLE (a :: as) (b :: bs)
      = if a < b then true else if b < a then false else charListLE as bs := rfl
  rw [hdef]
  rcases lt_trichotomy a b with h | h | h
  · simp [h]
  · subst h; simp [lt_irrefl]
  · simp [lt_asymm h, h, h.ne']

/-- The character-list order is total. -/
theorem charListLE_total : ∀ as bs : List Char,
    charListLE as bs = true ∨ charListLE bs as = true := by
  intro as
  induction as with
  | nil => intro bs; left; rfl
  | cons a as ih =>
    intro bs
    cases bs with
    | nil => right; rfl
    | cons b bs =>
      rcases lt_trichotomy a b with h | h | h
      · left; exact charListLE_cons_iff.mpr (Or.inl h)
      · subst h
        rcases ih bs with h' | h'
        · left; exact charListLE_cons_iff.mpr (Or.inr ⟨rfl, h'⟩)
        · right; exact charListLE_cons_iff.mpr (Or.inr ⟨rfl, h'⟩)
      · right; exact charListLE_cons_iff.mpr (Or.inl h)

/-- The character-list order is transitive. -/
theorem charListLE_trans : ∀ as bs cs : List Char,
    charListLE as bs = true → charListLE bs cs = true → charListLE as cs = true := by
  intro as
  induction as with
  | nil => intro bs cs _ _; rfl
  | cons a as ih =>
    intro bs cs h1 h2
    cases bs with
    | nil => exact absurd h1 (by simp [charListLE])
    | cons b bs =>
      cases cs with
      | nil => exact absurd h2 (by simp [charListLE])
      | cons c cs =>
        rcases charListLE_cons_iff.mp h1 with hab | ⟨hab, h1'⟩ <;>
          rcases charListLE_cons_iff.mp h2 with hbc | ⟨hbc, h2'⟩
        · exact charListLE_cons_iff.mpr (Or.inl (lt_trans hab hbc))
        · exact charListLE_cons_iff.mpr (Or.inl (hbc ▸ hab))
        · exact charListLE_cons_iff.mpr (Or.inl (hab ▸ hbc))
        · exact charListLE_cons_iff.mpr (Or.inr ⟨hab.trans hbc, ih bs cs h1' h2'⟩)

/-- The modelled Python string order is total. -/
theorem strLE_total (a b : String) : strLE a b = true ∨ strLE b a = true :=
  charListLE_total a.toList b.toList

/-- The modelled Python string order is transitive. -/
theorem strLE_trans {a b c : String} (h1 : strLE a b = true) (h2 : strLE b c = true) :
    strLE a c = true :=
  charListLE_trans a.toList b.toList c.toList h1 h2

/-- The key order `pairLE` is total. -/
theorem pairLE_total (a b : Int × String) : pairLE a b ∨ pairLE b a := by
  rcases lt_trichotomy a.1 b.1 with h | h | h
  · exact Or.inl (Or.inl h)
  · rcases strLE_total a.2 b.2 with h' | h'
    · exact Or.inl (Or.inr ⟨h, h'⟩)
    · exact Or.inr (Or.inr ⟨h.symm, h'⟩)
  · exact Or.inr (Or.inl h)

/-- The key order `pairLE` is transitive. -/
theorem pairLE_trans {a b c : Int × String} (h1 : pairLE a b) (h2 : pairLE b c) :
    pairLE a c := by
  rcases h1 with h1 | ⟨h1, h1'⟩ <;> rcases h2 with h2 | ⟨h2, h2'⟩
  · exact Or.inl (lt_trans h1 h2)
  · exact Or.inl (h2 ▸ h1)
  · exact Or.inl (h1 ▸ h2)
  · exact Or.inr ⟨h1.trans h2, strLE_trans h1' h2'⟩

instance : IsTotal FocusItem focusLE := ⟨fun a b => pairLE_total (focusKey a) (focusKey b)⟩

instance : IsTrans FocusItem focusLE := ⟨fun _ _ _ => pairLE_trans⟩

instance : IsTotal DueItem dueLE := ⟨fun a b => pairLE_total (dueKey a) (dueKey b)⟩

instance : IsTrans DueItem dueLE := ⟨fun _ _ _ => pairLE_trans⟩

instance : IsTotal BasicItem basicLE :=
  ⟨fun a b => strLE_total (a.due_date.getD "") (b.due_date.getD "")⟩

instance : IsTrans BasicItem basicLE := ⟨fun _ _ _ h1 h2 => strLE_trans h1 h2⟩

/-!
## Lookup-preservation lemmas for the instance merge
-/

/-- Defining equation of `lookupName` on nil. -/
@[simp] theorem lookupName_nil {n : String} : lookupName [] n = none := rfl

/-- Defining equation of `lookupName` on cons. -/
@[simp] theorem lookupName_cons {k : String} {v : InstanceEntry}
    {rest : List (String × InstanceEntry)} {n : String} :
    lookupName ((k, v) :: rest) n = if k = n then some v else lookupName rest n := rfl

/-- A binding found in a prefix is found in the whole list. -/
theorem lookupName_append {l l' : List (String × InstanceEntry)} {n : String}
    {e : InstanceEntry} (h : lookupName l n = some e) :
    lookupName (l ++ l') n = some e := by
  induction l with
  | nil => simp at h
  | cons p rest ih =>
    obtain ⟨k, v⟩ := p
    simp only [List.cons_append, lookupName_cons] at h ⊢
    by_cases hk : k = n
    · simpa [hk] using h
    · simp only [hk, if_false] at h ⊢
      exact ih h

/-- Folding a step that only ever appends fresh bindings preserves every
existing binding. -/
theorem foldl_lookup_preserved {α : Type} {n : String} {e : InstanceEntry}
    (f : List (String × InstanceEntry) → α → List (String × InstanceEntry))
    (hf : ∀ acc x, lookupName acc n = some e → lookupName (f acc x) n = some e) :
    ∀ (l : List α) (acc : List (String × InstanceEntry)),
      lookupName acc n = some e → lookupName (l.foldl f acc) n = some e := by
  intro l
  induction l with
  | nil => intro acc h; simpa using h
  | cons x xs ih => intro acc h; exact ih (f acc x) (hf acc x h)

/-- The array-form merge step preserves existing bindings. -/
theorem addArrayInstance_preserves {n : String} {e : InstanceEntry}
    (acc : List (String × InstanceEntry)) (it : EnvItem)
    (h : lookupName acc n = some e) :
    lookupName (addArrayInstance acc it) n = some e := by
  have hdef : addArrayInstance acc it
      = if it.name.getD "" ≠ "" ∧ hasName acc (it.name.getD "") = false then
          acc ++ [(it.name.getD "", mkEnvEntry it)]
        else acc := rfl
  rw [hdef]
  split
  · exact lookupName_append h
  · exact h

/-- The object-form merge step preserves existing bindings. -/
theorem addObjectInstance_preserves {n : String} {e : InstanceEntry}
    (acc : List (String × InstanceEntry)) (p : String × EnvItem)
    (h : lookupName acc n = some e) :
    lookupName (addObjectInstance acc p) n = some e := by
  unfold addObjectInstance
  split
  · exact lookupName_append h
  · exact h

/-- The environment JSON merge preserves every existing binding. -/
theorem envJsonMerge_preserves {n : String} {e : InstanceEntry}
    (instJson : Option (Except Unit EnvInstances))
    (instances : List (String × InstanceEntry))
    (h : lookupName instances n = some e) :
    lookupName (envJsonMerge instJson instances) n = some e := by
  unfold envJsonMerge
  rcases instJson with _ | ej
  · exact h
  · rcases ej with u | ev
    · exact h
    · rcases ev with items | fields | _
      · exact foldl_lookup_preserved addArrayInstance
          (fun acc x => addArrayInstance_preserves acc x) items instances h
      · exact foldl_lookup_preserved addObjectInstance
          (fun acc x => addObjectInstance_preserves acc x) fields instances h
      · exact h

/-- The flat-variable default fallback preserves every existing binding. -/
theorem defaultFallback_preserves {n : String} {e : InstanceEntry}
    (url token : Option String) (instances : List (String × InstanceEntry))
    (h : lookupName instances n = some e) :
    lookupName (defaultFallback url token instances) n = some e := by
  unfold defaultFallback
  rcases truthyOpt url with _ | u <;> rcases truthyOpt token with _ | t
  · exact h
  · exact h
  · exact h
  · dsimp only
    split
    · exact lookupName_append h
    · exact h

/-- C1: an instance name defined in the instances map of the config file is
bound in `_get_instances` to the config-file entry — the environment JSON
(array or object form) and the VIKUNJA_URL/VIKUNJA_TOKEN fallback never
override it.  This is stated for every name the config file defines,
which in particular covers every name both sources define. -/
theorem config_instances_precedence (cfg : Config) (env : Env) (name : String)
    (e : InstanceEntry) (h : lookupName cfg.instances name = some e) :
    lookupName (_get_instances cfg env) name = some e := by
  unfold _get_instances
  exact defaultFallback_preserves env.url env.token _
    (envJsonMerge_preserves env.instJson cfg.instances h)

/-- Config-file entry used by the C1 witness. -/
def cFileEntry : InstanceEntry := ⟨some "https://file.example.com", some "tok_file"⟩

/-- Config used by the C1 witness: the file defines personal and default. -/
def cFileCfg : Config := ⟨[("personal", cFileEntry), ("default", cFileEntry)], none, none⟩

/-- Environment used by the C1 witness: object-form JSON redefines
personal, and the flat pair would synthesize default. -/
def cCollidingEnv : Env :=
  ⟨some (Except.ok (EnvInstances.object
      [("personal", ⟨none, some "https://env.example.com", some "tok_env"⟩)])),
   some "https://flat.example.com", some "tok_flat", fun _ => none⟩

/-- Witness for C1: both colliding names stay bound to the config-file
entry. -/
theorem config_instances_precedence_witness :
    lookupName cFileCfg.instances "personal" = some cFileEntry
    ∧ lookupName (_get_instances cFileCfg cCollidingEnv) "personal" = some cFileEntry
    ∧ lookupName (_get_instances cFileCfg cCollidingEnv) "default" = some cFileEntry :=
  ⟨rfl, config_instances_precedence cFileCfg cCollidingEnv "personal" cFileEntry rfl,
    config_instances_precedence cFileCfg cCollidingEnv "default" cFileEntry rfl⟩

/-- C2: `_get_current_instance` realizes the claimed resolution order —
session-context instance, else persisted current_instance, else default
when resolvable, else the first resolvable instance in insertion order,
else none; with no config file and no environment it yields none, and with
only the flat VIKUNJA_URL/VIKUNJA_TOKEN pair set it yields default. -/
theorem resolve_current_matches_spec :
    (∀ (cfg : Config) (env : Env),
        _get_current_instance cfg env = resolveCurrentSpec cfg env)
    ∧ _get_current_instance defaultConfig emptyEnv = none
    ∧ (∀ u t : String, u ≠ "" → t ≠ "" →
        _get_current_instance defaultConfig ⟨none, some u, some t, fun _ => none⟩
          = some "default") := by
  refine ⟨fun cfg env => ?_, rfl, fun u t hu ht => ?_⟩
  · unfold _get_current_instance resolveCurrentSpec
    cases truthyOpt cfg.mcp_instance with
    | some s => rfl
    | none =>
      cases truthyOpt cfg.current_instance with
      | some s => rfl
      | none =>
        cases hI : _get_instances cfg env with
        | nil => simp [hasName]
        | cons p rest =>
          obtain ⟨n, e⟩ := p
          by_cases hd : hasName ((n, e) :: rest) "default"
          · simp [hd]
          · simp [hd]
  · have hI : _get_instances ⟨[], none, none⟩ ⟨none, some u, some t, fun _ => none⟩
        = [("default", ⟨some (pyRstripSlash u), some t⟩)] := by
      unfold _get_instances envJsonMerge defaultFallback
      simp [truthyOpt, hu, ht, hasName]
    unfold _get_current_instance
    simp [defaultConfig, truthyOpt, hI, hasName]

/-- Witness for C2: a concrete flat-variable environment resolves to
default. -/
theorem resolve_current_matches_spec_witness :
    ("https://v.example.com" ≠ "" ∧ "tk_1" ≠ "")
    ∧ _get_current_instance defaultConfig
        ⟨none, some "https://v.example.com", some "tk_1", fun _ => none⟩
        = some "default" :=
  ⟨⟨by decide, by decide⟩,
    resolve_current_matches_spec.2.2 "https://v.example.com" "tk_1"
      (by decide) (by decide)⟩

/-- One fan-out iteration appends exactly the contribution of the instance. -/
theorem fanoutStep_eq (req : String → Except String Value) (results : List Value)
    (p : String × InstanceEntry) :
    fanoutStep req results p = results ++ instanceContribution req p := by
  unfold fanoutStep instanceContribution
  cases req p.1 with
  | ok data => cases ht : tagResult p.1 data <;> simp [ht]
  | error e => simp

/-- The fan-out fold collects the per-instance contributions in order. -/
theorem fanout_foldl (req : String → Except String Value) :
    ∀ (l : List (String × InstanceEntry)) (acc : List Value),
      l.foldl (fanoutStep req) acc = acc ++ l.flatMap (instanceContribution req) := by
  intro l
  induction l with
  | nil => intro acc; simp
  | cons p rest ih =>
    intro acc
    rw [List.foldl_cons, ih, fanoutStep_eq, List.flatMap_cons, List.append_assoc]

/-- Instance list of the C3 scenario: three configured instances. -/
def cThree : List (String × InstanceEntry) :=
  [("a", cFileEntry), ("b", cFileEntry), ("c", cFileEntry)]

/-- Request outcome of the C3 scenario: the middle instance raises, the
others return a one-task list. -/
def cReqOneFails : String → Except String Value := fun n =>
  if n = "b" then Except.error "boom"
  else Except.ok (Value.arr [Value.obj [("id", Value.int 1)]])

/-- C3: the fan-out aggregator is total — it never propagates a
per-instance failure — and returns exactly the concatenated tagged results
of the succeeding instances, omitting the failing ones; in particular,
with three configured instances of which one raises, it returns the
results of the other two and the raising instance contributes nothing. -/
theorem fanout_tolerates_failures :
    (∀ (instances : List (String × InstanceEntry)) (req : String → Except String Value),
        _request_all_instances instances "" req
          = instances.flatMap (instanceContribution req))
    ∧ _request_all_instances cThree "" cReqOneFails
        = [Value.obj [("id", Value.int 1), ("_instance", Value.str "a")],
           Value.obj [("id", Value.int 1), ("_instance", Value.str "c")]]
    ∧ instanceContribution cReqOneFails ("b", cFileEntry) = [] := by
  refine ⟨fun instances req => ?_, rfl, rfl⟩
  unfold _request_all_instances
  simp only [ne_eq, not_true_eq_false, if_false, if_neg]
  rw [fanout_foldl]
  simp

/-- C4: `focus_now` with limit 0 returns every matching task (as a
permutation of the items of the matching tasks); with a positive limit it
returns exactly `min limit total` items; in both cases `total_matching` is
the untruncated count of matching tasks. -/
theorem focus_now_limit_spec (tasks : List VikTask) (now : PyDateTime) :
    ((focus_now tasks now 0).tasks.length = (tasks.filter (focusMatches now)).length
      ∧ List.Perm (focus_now tasks now 0).tasks
          ((tasks.filter (focusMatches now)).map (mkFocusItem now))
      ∧ (focus_now tasks now 0).total_matching = (tasks.filter (focusMatches now)).length)
    ∧ (∀ limit : Int, 0 < limit →
        (focus_now tasks now limit).tasks.length
            = min limit.toNat (tasks.filter (focusMatches now)).length
        ∧ (focus_now tasks now limit).total_matching
            = (tasks.filter (focusMatches now)).length) := by
  constructor
  · refine ⟨?_, ?_, ?_⟩
    · simp [focus_now]
    · simpa [focus_now] using
        List.perm_insertionSort focusLE
          ((tasks.filter (focusMatches now)).map (mkFocusItem now))
    · simp [focus_now]
  · intro limit hlim
    constructor
    · simp [focus_now, hlim, List.length_take]
    · simp [focus_now, hlim]

/-- Concrete overdue high-priority task for the C4 witness. -/
def wTask : VikTask := ⟨1, "w", some "2024-01-01T00:00:00Z", some 5, "p", "i"⟩

/-- Concrete now (2024-01-10 12:00:00 UTC) shared by witnesses. -/
def wNow : PyDateTime := ⟨2024, 1, 10, 12, 0, 0, 0, 0⟩

/-- Witness for C4: a positive limit on a one-task snapshot. -/
theorem focus_now_limit_spec_witness :
    (0 : Int) < 1
    ∧ (focus_now [wTask] wNow 1).tasks.length
        = min (Int.toNat 1) (([wTask].filter (focusMatches wNow)).length) :=
  ⟨by decide, ((focus_now_limit_spec [wTask] wNow).2 1 (by decide)).1⟩

/-- C5: a task whose due-date field is the zero-value sentinel, and a task
whose due-date string fails to parse, are classified exactly like a task
with no due-date field in every query tool: the full outputs of
`overdue_tasks`, `due_today`, `due_this_week`, `upcoming_deadlines`,
`unscheduled_tasks` and `task_summary` agree, and the membership
predicates of `focus_now`, `high_priority_tasks` and `urgent_tasks`
agree (their item lists can still render the raw due-date string). -/
theorem due_absent_classification (t : VikTask) (s : String) (now : PyDateTime)
    (days : Int) (hbad : parseIso (pyReplaceZ s) = none) :
    (_parse_due_date { t with due_date := some sentinelDue } = none
      ∧ _parse_due_date { t with due_date := some s } = none
      ∧ _parse_due_date { t with due_date := none } = none)
    ∧ (overdue_tasks [{ t with due_date := some sentinelDue }] now
        = overdue_tasks [{ t with due_date := none }] now
      ∧ overdue_tasks [{ t with due_date := some s }] now
        = overdue_tasks [{ t with due_date := none }] now)
    ∧ (due_today [{ t with due_date := some sentinelDue }] now
        = due_today [{ t with due_date := none }] now
      ∧ due_today [{ t with due_date := some s }] now
        = due_today [{ t with due_date := none }] now)
    ∧ (due_this_week [{ t with due_date := some sentinelDue }] now
        = due_this_week [{ t with due_date := none }] now
      ∧ due_this_week [{ t with due_date := some s }] now
        = due_this_week [{ t with due_date := none }] now)
    ∧ (upcoming_deadlines [{ t with due_date := some sentinelDue }] now days
        = upcoming_deadlines [{ t with due_date := none }] now days
      ∧ upcoming_deadlines [{ t with due_date := some s }] now days
        = upcoming_deadlines [{ t with due_date := none }] now days)
    ∧ (unscheduled_tasks [{ t with due_date := some sentinelDue }]
        = unscheduled_tasks [{ t with due_date := none }]
      ∧ unscheduled_tasks [{ t with due_date := some s }]
        = unscheduled_tasks [{ t with due_date := none }])
    ∧ (task_summary [{ t with due_date := some sentinelDue }] now
        = task_summary [{ t with due_date := none }] now
      ∧ task_summary [{ t with due_date := some s }] now
        = task_summary [{ t with due_date := none }] now)
    ∧ (focusMatches now { t with due_date := some sentinelDue }
        = focusMatches now { t with due_date := none }
      ∧ focusMatches now { t with due_date := some s }
        = focusMatches now { t with due_date := none })
    ∧ (highPriorityMatches { t with due_date := some sentinelDue }
        = highPriorityMatches { t with due_date := none }
      ∧ highPriorityMatches { t with due_date := some s }
        = highPriorityMatches { t with due_date := none })
    ∧ (urgentMatches { t with due_date := some sentinelDue }
        = urgentMatches { t with due_date := none }
      ∧ urgentMatches { t with due_date := some s }
        = urgentMatches { t with due_date := none }) := by
  have hS : _parse_due_date { t with due_date := some sentinelDue } = none := by
    simp [_parse_due_date]
  have hB : _parse_due_date { t with due_date := some s } = none := by
    unfold _parse_due_date
    dsimp only
    split
    · rfl
    · exact hbad
  have hN : _parse_due_date { t with due_date := none } = none := rfl
  refine ⟨⟨hS, hB, hN⟩, ?_, ?_, ?_, ?_, ?_, ?_, ?_, ?_, ?_⟩
  · exact ⟨by simp [overdue_tasks, isOverdueAt, hS, hN],
      by simp [overdue_tasks, isOverdueAt, hB, hN]⟩
  · exact ⟨by simp [due_today, dueTodayMatches, hS, hN],
      by simp [due_today, dueTodayMatches, hB, hN]⟩
  · exact ⟨by simp [due_this_week, dueThisWeekMatches, hS, hN],
      by simp [due_this_week, dueThisWeekMatches, hB, hN]⟩
  · exact ⟨by simp [upcoming_deadlines, upcomingMatches, hS, hN],
      by simp [upcoming_deadlines, upcomingMatches, hB, hN]⟩
  · exact ⟨by simp [unscheduled_tasks, unscheduledMatches, hS, hN],
      by simp [unscheduled_tasks, unscheduledMatches, hB, hN]⟩
  · exact ⟨by simp [task_summary, summaryStep, hS, hN],
      by simp [task_summary, summaryStep, hB, hN]⟩
  · exact ⟨by simp [focusMatches, isOverdueAt, hS, hN],
      by simp [focusMatches, isOverdueAt, hB, hN]⟩
  · exact ⟨rfl, rfl⟩
  · exact ⟨rfl, rfl⟩

/-- Witness for C5: a concrete task, a concretely unparseable due-date
string, concrete now and days. -/
theorem due_absent_classification_witness :
    parseIso (pyReplaceZ "not-a-date") = none
    ∧ unscheduled_tasks [{ wTask with due_date := some "not-a-date" }]
        = unscheduled_tasks [{ wTask with due_date := none }] :=
  ⟨by decide,
    (due_absent_classification wTask "not-a-date" wNow 3 (by decide)).2.2.2.2.2.1.2⟩

/-- Low-priority task due earlier, for the C6 counterexample. -/
def cTaskA : VikTask := ⟨1, "a", some "2024-01-01T00:00:00Z", some 0, "", ""⟩

/-- High-priority task due later, for the C6 counterexample. -/
def cTaskB : VikTask := ⟨2, "b", some "2024-01-02T00:00:00Z", some 5, "", ""⟩

/-- Counterexample for C6: both tasks are due today (both overdue against
2024-01-10), yet `due_today` returns the later due-date string first —
the list is ordered by priority first, so it is not sorted ascending by
the raw due-date string. -/
theorem due_today_sort_counterexample :
    ((due_today [cTaskA, cTaskB] wNow).tasks.map (fun i => i.due_date.getD ""))
      = ["2024-01-02T00:00:00Z", "2024-01-01T00:00:00Z"]
    ∧ strLE "2024-01-02T00:00:00Z" "2024-01-01T00:00:00Z" = false :=
  ⟨rfl, by decide⟩

/-- C6 (amended): `due_today` returns exactly the tasks whose due instant
is at most the end of the current calendar day, and the returned list is
sorted by priority descending first and by the raw due-date string
ascending second (the stable Python sort on the key `(-priority, due)`). -/
theorem due_today_spec (tasks : List VikTask) (now : PyDateTime) :
    List.Perm (due_today tasks now).tasks
        ((tasks.filter (dueTodayMatches now)).map (mkDueItem now))
    ∧ List.Sorted dueLE (due_today tasks now).tasks
    ∧ (due_today tasks now).count = (due_today tasks now).tasks.length := by
  refine ⟨?_, ?_, rfl⟩
  · simpa [due_today] using List.perm_insertionSort dueLE
      ((tasks.filter (dueTodayMatches now)).map (mkDueItem now))
  · simpa [due_today] using List.sorted_insertionSort dueLE
      ((tasks.filter (dueTodayMatches now)).map (mkDueItem now))

/-- Counterexample for C7: a 200 response whose body is not valid JSON
makes the request raise (a JSON decode error), so the client does not
raise only on statuses of at least 400. -/
theorem request_error_counterexample :
    _request_handle ⟨200, "oops", Except.error ()⟩
      = Except.error "JSONDecodeError: response body is not valid JSON"
    ∧ ¬ (400 ≤ 200) :=
  ⟨rfl, by decide⟩

/-- C7 (amended): a status of at least 400 raises a Vikunja API error
carrying the status code and the best-effort message — the message
field when the body parses to a dict carrying one, else the raw body
text; a 204 yields the empty structure; any other success status yields
the parsed JSON body, but raises a decode error when the body is not
valid JSON. -/
theorem request_handle_spec (resp : HttpResponse) :
    (400 ≤ resp.status →
        _request_handle resp
          = Except.error ("Vikunja API error (" ++ toString resp.status ++ "): "
              ++ bestEffortMessage resp))
    ∧ (resp.status = 204 → _request_handle resp = Except.ok (Value.obj []))
    ∧ (resp.status < 400 → resp.status ≠ 204 →
        ∀ v : Value, resp.json = Except.ok v → _request_handle resp = Except.ok v)
    ∧ (resp.status < 400 → resp.status ≠ 204 → resp.json = Except.error () →
        _request_handle resp
          = Except.error "JSONDecodeError: response body is not valid JSON")
    ∧ (∀ (fs : List (String × Value)) (m : String),
        resp.json = Except.ok (Value.obj fs) → lookupField fs "message" = some (Value.str m) →
          bestEffortMessage resp = m)
    ∧ (resp.json = Except.error () → bestEffortMessage resp = resp.text) := by
  refine ⟨?_, ?_, ?_, ?_, ?_, ?_⟩
  · intro h
    unfold _request_handle
    rw [if_pos h]
  · intro h
    unfold _request_handle
    rw [if_neg (by omega), if_pos h]
  · intro h h204 v hv
    unfold _request_handle
    rw [if_neg (by omega), if_neg h204, hv]
  · intro h h204 hj
    unfold _request_handle
    rw [if_neg (by omega), if_neg h204, hj]
  · intro fs m hj hm
    simp [bestEffortMessage, hj, hm, pyStr]
  · intro hj
    unfold bestEffortMessage
    rw [hj]

/-- Witness for C7: a 500 error body, a 204, a 200 with a JSON body and a
200 with a broken body, all handled as stated. -/
theorem request_handle_spec_witness :
    (400 ≤ 500
      ∧ _request_handle ⟨500, "boom", Except.ok (Value.obj [("message", Value.str "bad")])⟩
        = Except.error ("Vikunja API error (" ++ toString 500 ++ "): "
            ++ bestEffortMessage ⟨500, "boom", Except.ok (Value.obj [("message", Value.str "bad")])⟩))
    ∧ _request_handle ⟨204, "", Except.error ()⟩ = Except.ok (Value.obj [])
    ∧ _request_handle ⟨200, "", Except.ok (Value.arr [])⟩ = Except.ok (Value.arr [])
    ∧ bestEffortMessage ⟨500, "boom", Except.ok (Value.obj [("message", Value.str "bad")])⟩
        = "bad" :=
  ⟨⟨by decide, (request_handle_spec ⟨500, "boom",
        Except.ok (Value.obj [("message", Value.str "bad")])⟩).1 (by decide)⟩,
    (request_handle_spec ⟨204, "", Except.error ()⟩).2.1 rfl,
    (request_handle_spec ⟨200, "", Except.ok (Value.arr [])⟩).2.2.1 (by decide) (by decide)
      (Value.arr []) rfl,
    (request_handle_spec ⟨500, "boom",
        Except.ok (Value.obj [("message", Value.str "bad")])⟩).2.2.2.2.1
      [("message", Value.str "bad")] "bad" rfl rfl⟩

/-- C8: a stored token of the literal dollar-brace form is substituted from
the environment at the point of use; when the variable is unset the
resolution fails with a configuration error naming the variable and the
instance, and no request is issued (`_request` returns that very error for
every possible network). -/
theorem token_indirection_spec (cfg : Config) (env : Env) (n u tok v : String)
    (inst : InstanceEntry)
    (hlook : lookupName (_get_instances cfg env) n = some inst)
    (hurl : inst.url = some u) (hu : u ≠ "")
    (htok : inst.token = some tok) (ht : tok ≠ "")
    (hpre : pyStartsWith tok "$\x7b" = true) (hsuf : pyEndsWith tok "\x7d" = true)
    (hvar : tokenVarName tok = v) :
    (∀ tv : String, env.vars v = some tv → tv ≠ "" →
        _get_instance_config cfg env (some n) = Except.ok (pyRstripSlash u, tv))
    ∧ (env.vars v = none →
        _get_instance_config cfg env (some n)
          = Except.error ("Environment variable " ++ v ++ " not set for instance \x27"
              ++ n ++ "\x27")
        ∧ ∀ net : String → String → HttpResponse,
            _request cfg env (some n) net
              = Except.error ("Environment variable " ++ v ++ " not set for instance \x27"
                  ++ n ++ "\x27")) := by
  constructor
  · intro tv hv htv
    unfold _get_instance_config
    dsimp only
    rw [hlook]
    simp only [htok, hurl, ht, hpre, hsuf, hvar, hv, and_true, true_and,
      ne_eq, not_false_eq_true, if_pos, truthyOpt]
    simp [htv, hu]
  · intro hv
    have hcfg : _get_instance_config cfg env (some n)
        = Except.error ("Environment variable " ++ v ++ " not set for instance \x27"
            ++ n ++ "\x27") := by
      unfold _get_instance_config
      dsimp only
      rw [hlook]
      simp only [htok, hurl, ht, hpre, hsuf, hvar, hv, and_true, true_and,
        ne_eq, not_false_eq_true, if_pos, truthyOpt]
    exact ⟨hcfg, fun net => by unfold _request; rw [hcfg]⟩

/-- Instance entry with an indirect token, for the C8 witness. -/
def c8Entry : InstanceEntry := ⟨some "https://x/", some "$\x7bMY_TOKEN\x7d"⟩

/-- Config for the C8 witness. -/
def c8Cfg : Config := ⟨[("prod", c8Entry)], none, none⟩

/-- Environment for the C8 witness with the variable set. -/
def c8EnvSet : Env :=
  ⟨none, none, none, fun k => if k = "MY_TOKEN" then some "sek" else none⟩

/-- Witness for C8: the set variable is substituted, the unset one fails
with the error naming variable and instance. -/
theorem token_indirection_spec_witness :
    _get_instance_config c8Cfg c8EnvSet (some "prod") = Except.ok ("https://x", "sek")
    ∧ _get_instance_config c8Cfg emptyEnv (some "prod")
        = Except.error ("Environment variable MY_TOKEN not set for instance \x27prod\x27") := by
  have h := token_indirection_spec c8Cfg c8EnvSet "prod" "https://x/" "$\x7bMY_TOKEN\x7d"
    "MY_TOKEN" c8Entry rfl rfl (by decide) rfl (by decide) (by decide) (by decide) (by decide)
  have h2 := token_indirection_spec c8Cfg emptyEnv "prod" "https://x/" "$\x7bMY_TOKEN\x7d"
    "MY_TOKEN" c8Entry rfl rfl (by decide) rfl (by decide) (by decide) (by decide) (by decide)
  constructor
  · have hr : pyRstripSlash "https://x/" = "https://x" := by decide
    have happ := h.1 "sek" rfl (by decide)
    rw [hr] at happ
    exact happ
  · have happ := (h2.2 rfl).1
    have hs : ("Environment variable " ++ "MY_TOKEN" ++ " not set for instance \x27"
        ++ "prod" ++ "\x27")
        = "Environment variable MY_TOKEN not set for instance \x27prod\x27" := by decide
    rw [hs] at happ
    exact happ

/-- Defining equation of `lookupField` on nil. -/
@[simp] theorem lookupField_nil {n : String} : lookupField [] n = none := rfl

/-- Defining equation of `lookupField` on cons. -/
@[simp] theorem lookupField_cons {k : String} {v : Value}
    {rest : List (String × Value)} {n : String} :
    lookupField ((k, v) :: rest) n = if k = n then some v else lookupField rest n := rfl

/-- Key lookup distributes over append. -/
theorem lookupField_append (l l' : List (String × Value)) (k : String) :
    lookupField (l ++ l') k
      = match lookupField l k with
        | some v => some v
        | none => lookupField l' k := by
  induction l with
  | nil => simp
  | cons p rest ih =>
    obtain ⟨k', v'⟩ := p
    by_cases hk : k' = k <;> simp [hk, ih]

/-- Key membership distributes over append. -/
theorem hasFieldB_append (l l' : List (String × Value)) (k : String) :
    hasFieldB (l ++ l') k = (hasFieldB l k || hasFieldB l' k) := by
  unfold hasFieldB
  rw [lookupField_append]
  cases lookupField l k <;> simp

/-- `ensureKey` establishes its key. -/
theorem hasFieldB_ensureKey_self (fs : List (String × Value)) (k : String) :
    hasFieldB (ensureKey fs k) k = true := by
  unfold ensureKey
  split
  · assumption
  · rw [hasFieldB_append]
    simp [hasFieldB]

/-- `ensureKey` keeps every key already present. -/
theorem hasFieldB_ensureKey_of (fs : List (String × Value)) (k k' : String)
    (h : hasFieldB fs k' = true) : hasFieldB (ensureKey fs k) k' = true := by
  unfold ensureKey
  split
  · exact h
  · simp [hasFieldB_append, h]

/-- `ensureKey` is the identity when the key is present. -/
theorem ensureKey_of_has (fs : List (String × Value)) (k : String)
    (h : hasFieldB fs k = true) : ensureKey fs k = fs := by
  unfold ensureKey
  rw [if_pos h]

/-- The defaulting loop establishes all three keys. -/
theorem defaultConfigKeys_has (fs : List (String × Value)) :
    hasFieldB (defaultConfigKeys fs) "instances" = true
    ∧ hasFieldB (defaultConfigKeys fs) "xq" = true
    ∧ hasFieldB (defaultConfigKeys fs) "mcp_context" = true := by
  unfold defaultConfigKeys
  refine ⟨?_, ?_, hasFieldB_ensureKey_self _ _⟩
  · exact hasFieldB_ensureKey_of _ _ _
      (hasFieldB_ensureKey_of _ _ _ (hasFieldB_ensureKey_self _ _))
  · exact hasFieldB_ensureKey_of _ _ _ (hasFieldB_ensureKey_self _ _)

/-- The defaulting loop is idempotent. -/
theorem defaultConfigKeys_idem (fs : List (String × Value)) :
    defaultConfigKeys (defaultConfigKeys fs) = defaultConfigKeys fs := by
  obtain ⟨h1, h2, h3⟩ := defaultConfigKeys_has fs
  show ensureKey (ensureKey (ensureKey (defaultConfigKeys fs) "instances") "xq")
      "mcp_context" = defaultConfigKeys fs
  rw [ensureKey_of_has _ _ h1, ensureKey_of_has _ _ h2, ensureKey_of_has _ _ h3]

/-- A defaulted config dict is never the empty dict. -/
theorem defaultConfigKeys_not_isEmpty (fs : List (String × Value)) :
    (defaultConfigKeys fs).isEmpty = false := by
  have h3 := (defaultConfigKeys_has fs).2.2
  cases hgs : defaultConfigKeys fs with
  | nil => rw [hgs] at h3; simp [hasFieldB] at h3
  | cons a l => simp

/-- C9: `save_config` after `load_config` round-trips — loading, saving
without modification and loading again yields the structure of the first
load, the defaulted empty maps for instances, xq and mcp_context
included. -/
theorem load_save_roundtrip (fs : FileState) (cfg : List (String × Value))
    (h : _load_config fs = Except.ok cfg) :
    _load_config (_save_config cfg) = Except.ok cfg := by
  have key : ∀ gs : List (String × Value),
      _load_config (_save_config (defaultConfigKeys gs))
        = Except.ok (defaultConfigKeys gs) := by
    intro gs
    have hne := defaultConfigKeys_not_isEmpty gs
    unfold _save_config _load_config
    dsimp only
    rw [show isFalsy (Value.obj (defaultConfigKeys gs)) = false from by
      simp [isFalsy, hne]]
    simp [defaultConfigKeys_idem]
  cases fs with
  | absent =>
    simp only [_load_config, Except.ok.injEq] at h
    subst h
    rfl
  | malformed => simp [_load_config] at h
  | parsed v =>
    cases v with
    | none =>
      simp only [_load_config, Except.ok.injEq] at h
      subst h
      exact key []
    | some w =>
      unfold _load_config at h
      dsimp only at h
      by_cases hf : isFalsy w = true
      · rw [if_pos hf] at h
        obtain rfl := (Except.ok.injEq _ _).mp h
        exact key []
      · rw [if_neg hf] at h
        cases w with
        | obj gs =>
          obtain rfl := (Except.ok.injEq _ _).mp h
          exact key gs
        | null => simp at h
        | bool b => simp at h
        | int n => simp at h
        | str s => simp at h
        | arr es => simp at h

/-- Witness for C9: the defaults written for a missing file load back
unchanged. -/
theorem load_save_roundtrip_witness :
    _load_config FileState.absent
      = Except.ok [("instances", Value.obj []), ("current_instance", Value.null),
                   ("xq", Value.obj []), ("mcp_context", Value.obj [])]
    ∧ _load_config (_save_config
          [("instances", Value.obj []), ("current_instance", Value.null),
           ("xq", Value.obj []), ("mcp_context", Value.obj [])])
      = Except.ok [("instances", Value.obj []), ("current_instance", Value.null),
                   ("xq", Value.obj []), ("mcp_context", Value.obj [])] :=
  ⟨rfl, load_save_roundtrip FileState.absent _ rfl⟩

/-- C10: the resolver does not validate the persisted name — a truthy
session-context instance (or, failing that, a truthy persisted
current_instance) is returned verbatim even when it is absent from the
resolvable instance set, and credential resolution for it then fails with
the not-found error. -/
theorem stale_current_instance (cfg : Config) (env : Env) (n : String)
    (hmode : truthyOpt cfg.mcp_instance = some n
      ∨ (truthyOpt cfg.mcp_instance = none ∧ truthyOpt cfg.current_instance = some n))
    (habs : lookupName (_get_instances cfg env) n = none) :
    _get_current_instance cfg env = some n
    ∧ _get_instance_config cfg env none
        = Except.error ("Instance \x27" ++ n ++ "\x27 not found") := by
  have hcur : _get_current_instance cfg env = some n := by
    unfold _get_current_instance
    rcases hmode with h | ⟨h1, h2⟩
    · rw [h]
    · rw [h1, h2]
  refine ⟨hcur, ?_⟩
  unfold _get_instance_config
  dsimp only
  rw [hcur]
  dsimp only
  rw [habs]

/-- Config with a dangling session-context name, for the C10 witness. -/
def c10Cfg : Config := ⟨[], none, some "ghost"⟩

/-- Witness for C10: the dangling name resolves as current but its
credential lookup fails. -/
theorem stale_current_instance_witness :
    truthyOpt c10Cfg.mcp_instance = some "ghost"
    ∧ lookupName (_get_instances c10Cfg emptyEnv) "ghost" = none
    ∧ _get_current_instance c10Cfg emptyEnv = some "ghost"
    ∧ _get_instance_config c10Cfg emptyEnv none
        = Except.error "Instance \x27ghost\x27 not found" := by
  have h := stale_current_instance c10Cfg emptyEnv "ghost" (Or.inl rfl) rfl
  refine ⟨rfl, rfl, h.1, ?_⟩
  have hs : ("Instance \x27" ++ "ghost" ++ "\x27 not found")
      = "Instance \x27ghost\x27 not found" := by decide
  have happ := h.2
  rw [hs] at happ
  exact happ
